import Mathlib

/-!
Formal model of the WebXR "place and anchor" front-end (src/App.jsx and
src/useModelUrl.js). Vectors and quaternions use exact rational
coordinates; machine floats are treated as exact arithmetic. Platform
collaborators (fetch, navigator.xr, the XR hit-test source, three.js
getWorldMatrix and Matrix4.decompose) are external: their outcomes are
modelled as input data to the repository code being verified.
-/

/-- three.js Vector3 value: three rational coordinates. -/
structure Vec3 where
  x : ℚ
  y : ℚ
  z : ℚ
deriving DecidableEq, Repr

/-- three.js Quaternion value: x, y, z, w components. -/
structure Quat where
  x : ℚ
  y : ℚ
  z : ℚ
  w : ℚ
deriving DecidableEq, Repr

/-- Default-constructed Vector3 is the origin. -/
def Vec3.zero : Vec3 := ⟨0, 0, 0⟩

/-- Default-constructed Quaternion is the identity rotation. -/
def Quat.identity : Quat := ⟨0, 0, 0, 1⟩

/-- three.js Vector3.add: componentwise sum. -/
def Vec3.add (a b : Vec3) : Vec3 := ⟨a.x + b.x, a.y + b.y, a.z + b.z⟩

/-- three.js Vector3.multiplyScalar. -/
def Vec3.multiplyScalar (v : Vec3) (s : ℚ) : Vec3 := ⟨v.x * s, v.y * s, v.z * s⟩

/-- three.js Vector3.applyQuaternion, transcribed from the three.js source:
t = 2 * cross(q.xyz, v); result = v + q.w * t + cross(q.xyz, t). -/
def Vec3.applyQuaternion (v : Vec3) (q : Quat) : Vec3 :=
  let tx := 2 * (q.y * v.z - q.z * v.y)
  let ty := 2 * (q.z * v.x - q.x * v.z)
  let tz := 2 * (q.x * v.y - q.y * v.x)
  ⟨v.x + q.w * tx + q.y * tz - q.z * ty,
   v.y + q.w * ty + q.z * tx - q.x * tz,
   v.z + q.w * tz + q.x * ty - q.y * tx⟩

/-- Pose: position plus rotation, as captured by hit-testing or the
place-in-front computation (App.jsx data model). -/
structure Pose where
  position : Vec3
  rotation : Quat
deriving DecidableEq, Repr

/-- Camera snapshot seen by the place-in-front effect in ARExperience:
its world position (camera.getWorldPosition) and its quaternion. -/
structure Camera where
  worldPosition : Vec3
  quaternion : Quat
deriving DecidableEq, Repr

/-- Forward direction of a camera: the unit -Z axis rotated by the camera
quaternion, exactly as ARExperience computes it with
tempPlaceForward.set(0, 0, -1).applyQuaternion(camera.quaternion). -/
def cameraForward (q : Quat) : Vec3 := (Vec3.mk 0 0 (-1)).applyQuaternion q

/-- Place-in-front effect body (App.jsx lines 126-137): camPos is the
camera world position, forward the rotated -Z axis, and the emitted
anchor request is camPos.add(forward.multiplyScalar(0.85)) with a clone
of the camera quaternion. -/
def placeInFrontPose (camera : Camera) : Pose :=
  let camPos := camera.worldPosition
  let forward := cameraForward camera.quaternion
  let targetPos := camPos.add (forward.multiplyScalar (0.85 : ℚ))
  { position := targetPos, rotation := camera.quaternion }

/-! Model resolver (src/useModelUrl.js). The HEAD fetch either yields a
response with some HTTP status, or rejects with a network error. -/

/-- Outcome of the fetch existence check on the preferred URL. -/
inductive FetchOutcome where
  | response (status : Nat)
  | networkError
deriving DecidableEq, Repr

/-- Response.ok of the Fetch API: status in the inclusive range 200-299. -/
def responseOk (status : Nat) : Bool := 200 ≤ status && status ≤ 299

/-- Initial url state of useModelUrl: useState(null). -/
def useModelUrlInit : Option String := none

/-- Settlement of the fetch in useModelUrl. The then-branch returns
without writing when cancelled, else writes res.ok ? primary : fallback;
the catch-branch returns without writing when cancelled, else writes the
fallback (useModelUrl.js lines 9-17). -/
def useModelUrlSettle (primary fallback : String) (cancelled : Bool)
    (o : FetchOutcome) (url : Option String) : Option String :=
  match o with
  | .response st => if cancelled then url else some (if responseOk st then primary else fallback)
  | .networkError => if cancelled then url else some fallback

/-! Capability probe (App.jsx lines 201-218). -/

/-- Settlement of navigator.xr.isSessionSupported("immersive-ar"). -/
inductive ProbeOutcome where
  | resolved (supported : Bool)
  | rejected
deriving DecidableEq, Repr

/-- Support state after the capability effect runs to completion, starting
from useState(null). When navigator.xr is absent the effect writes false
synchronously; otherwise the then-handler writes the resolved boolean only
if isMounted, and the catch-handler writes false unconditionally
(App.jsx lines 203-213). -/
def capabilityProbe (xrAvailable : Bool) (isMounted : Bool)
    (o : ProbeOutcome) : Option Bool :=
  if !xrAvailable then some false
  else
    match o with
    | .resolved b => if isMounted then some b else none
    | .rejected => some false

/-- Whether the probe settlement handlers perform a state write, as a
function of the mount flag at settlement time: the then-handler is guarded
by isMounted, the catch-handler is not (App.jsx lines 210-213). -/
def probeSettleWrites (isMounted : Bool) (o : ProbeOutcome) : Bool :=
  match o with
  | .resolved _ => isMounted
  | .rejected => true

/-- Whether the useModelUrl settlement handlers perform a state write:
both the then-handler and the catch-handler are guarded by the cancelled
flag (useModelUrl.js lines 11 and 15). -/
def modelUrlSettleWrites (cancelled : Bool) (o : FetchOutcome) : Bool :=
  match o with
  | .response _ => !cancelled
  | .networkError => !cancelled

/-! App shell state machine (App.jsx App component). -/

/-- React state of the App component that the session claims range over. -/
structure AppState where
  isSupported : Option Bool
  anchorPose : Option Pose
  isStarting : Bool
  showPreview : Bool
  placeInFrontTick : Nat
deriving DecidableEq, Repr

/-- Initial App state: all useState initialisers of App.jsx lines 161-165. -/
def appInit : AppState :=
  { isSupported := none, anchorPose := none, isStarting := false,
    showPreview := true, placeInFrontTick := 0 }

/-- Outcome of xrStore.enterAR(): the awaited promise resolves or rejects. -/
inductive SessionOutcome where
  | success
  | failure
deriving DecidableEq, Repr

/-- startAR (App.jsx lines 237-254). Returns early when a start is in
progress or support is known false. Otherwise clears the anchor, sets the
starting flag, hides the preview, awaits enterAR; on rejection logs an
error and restores the preview; the finally clause clears the starting
flag. The second component is the console error message, if any. -/
def startAR (s : AppState) (o : SessionOutcome) : AppState × Option String :=
  if s.isStarting || s.isSupported == some false then (s, none)
  else
    let s1 := { s with anchorPose := none, isStarting := true, showPreview := false }
    match o with
    | .success => ({ s1 with isStarting := false }, none)
    | .failure =>
        ({ s1 with showPreview := true, isStarting := false },
         some "Failed to start AR session")

/-- Back button handler (App.jsx lines 385-390): setShowPreview(true) and
setAnchorPose(null). -/
def backButton (s : AppState) : AppState :=
  { s with showPreview := true, anchorPose := none }

/-- Remove-model button handler (App.jsx lines 315-319 and 364-368):
setAnchorPose(null). -/
def removeModel (s : AppState) : AppState :=
  { s with anchorPose := none }

/-- C1: the place-in-front pose has rotation equal to the camera
quaternion and position equal to the camera world position plus 0.85
times the camera forward vector; in particular, a camera at the origin
whose forward vector is -Z yields position (0, 0, -0.85). -/
theorem placeInFront_correct (cam : Camera) :
    (placeInFrontPose cam).rotation = cam.quaternion ∧
    (placeInFrontPose cam).position =
      cam.worldPosition.add ((cameraForward cam.quaternion).multiplyScalar (0.85 : ℚ)) ∧
    (cam.worldPosition = Vec3.zero →
      cameraForward cam.quaternion = ⟨0, 0, -1⟩ →
      (placeInFrontPose cam).position = ⟨0, 0, -(0.85 : ℚ)⟩) := by
  refine ⟨rfl, rfl, fun hpos hfwd => ?_⟩
  simp [placeInFrontPose, hpos, hfwd, Vec3.zero, Vec3.add, Vec3.multiplyScalar]

/-- Witness for C1 at a concrete camera: origin position, identity
quaternion (which faces -Z), giving anchor position (0, 0, -0.85). -/
theorem placeInFront_correct_witness :
    (placeInFrontPose ⟨Vec3.zero, Quat.identity⟩).position = ⟨0, 0, -(0.85 : ℚ)⟩ :=
  (placeInFront_correct ⟨Vec3.zero, Quat.identity⟩).2.2 rfl
    (by simp [cameraForward, Vec3.applyQuaternion, Quat.identity])

/-- C2: with the resolver not cancelled, a non-success status or a network
error resolves to the fallback, a success status resolves to the
preferred URL, the state is null before settlement, and every outcome
resolves to some URL (no error state). -/
theorem useModelUrl_resolution (p f : String) (o : FetchOutcome) :
    useModelUrlInit = none ∧
    (∀ st, o = .response st → responseOk st = false →
      useModelUrlSettle p f false o useModelUrlInit = some f) ∧
    (o = .networkError → useModelUrlSettle p f false o useModelUrlInit = some f) ∧
    (∀ st, o = .response st → responseOk st = true →
      useModelUrlSettle p f false o useModelUrlInit = some p) ∧
    (useModelUrlSettle p f false o useModelUrlInit).isSome = true := by
  refine ⟨rfl, ?_, ?_, ?_, ?_⟩
  · rintro st rfl hok
    simp [useModelUrlSettle, hok]
  · rintro rfl
    simp [useModelUrlSettle]
  · rintro st rfl hok
    simp [useModelUrlSettle, hok]
  · cases o <;> simp [useModelUrlSettle]

/-- Witness for C2: a 404 on the preferred URL resolves to the fallback. -/
theorem useModelUrl_resolution_witness :
    useModelUrlSettle "/models/main-model.glb" "/models/anchor.glb" false
      (FetchOutcome.response 404) useModelUrlInit = some "/models/anchor.glb" :=
  (useModelUrl_resolution "/models/main-model.glb" "/models/anchor.glb"
    (FetchOutcome.response 404)).2.1 404 rfl (by decide)

/-- C5 counterexample: when the capability probe rejects after teardown
(isMounted already false), the catch-handler still performs a state
write, moving the stored support state from null to false; so not every
post-teardown state write is guarded by the cancellation flag. -/
theorem probe_catch_unguarded :
    probeSettleWrites false ProbeOutcome.rejected = true ∧
    capabilityProbe true false ProbeOutcome.rejected = some false := by
  decide

/-- C5 amended: the model-URL check performs no state write after
teardown on either settlement path, and the capability probe performs no
state write after teardown on the resolution path; but the capability
probe rejection path writes unconditionally, even after teardown. -/
theorem cancellation_guard_amended :
    (∀ (p f : String) (o : FetchOutcome) (url : Option String),
      useModelUrlSettle p f true o url = url) ∧
    (∀ o : FetchOutcome, modelUrlSettleWrites true o = false) ∧
    (∀ b : Bool, probeSettleWrites false (ProbeOutcome.resolved b) = false) ∧
    (∀ b : Bool, capabilityProbe true false (ProbeOutcome.resolved b) = none) ∧
    probeSettleWrites false ProbeOutcome.rejected = true := by
  refine ⟨fun p f o url => ?_, fun o => ?_, fun b => rfl, fun b => rfl, rfl⟩
  · cases o <;> rfl
  · cases o <;> rfl

/-- C6: from every prior state, the Back button clears the anchor pose
and sets the render mode to preview. -/
theorem back_clears_anchor (s : AppState) :
    (backButton s).anchorPose = none ∧ (backButton s).showPreview = true :=
  ⟨rfl, rfl⟩

/-- C7: for a start attempt that passes the guard, failure of enterAR
restores the preview mode, logs the error, and clears the starting flag
(non-fatal); success leaves the app in AR mode with no anchor pose
(scanning) and the starting flag cleared. -/
theorem startAR_outcomes (s : AppState)
    (h : ¬(s.isStarting = true ∨ s.isSupported = some false)) :
    ((startAR s .failure).1.showPreview = true ∧
     (startAR s .failure).2 = some "Failed to start AR session" ∧
     (startAR s .failure).1.isStarting = false) ∧
    ((startAR s .success).1.showPreview = false ∧
     (startAR s .success).1.anchorPose = none ∧
     (startAR s .success).1.isStarting = false) := by
  push_neg at h
  obtain ⟨h1, h2⟩ := h
  have h1' : s.isStarting = false := by
    cases hb : s.isStarting
    · rfl
    · exact absurd hb h1
  have hg : (s.isStarting || s.isSupported == some false) = false := by
    simp [h1', h2]
  refine ⟨?_, ?_⟩ <;> simp [startAR, hg]

/-- Witness for C7 at the initial app state, where the guard passes. -/
theorem startAR_outcomes_witness :
    (startAR appInit .failure).1.showPreview = true ∧
    (startAR appInit .success).1.anchorPose = none :=
  ⟨((startAR_outcomes appInit (by decide)).1).1,
   ((startAR_outcomes appInit (by decide)).2).2.1⟩

/-- C8: for every probe outcome in a mounted run, including the case
where navigator.xr is absent, the stored support state after settlement
is some boolean, never the initial null. -/
theorem probe_settles_to_boolean (xrAvailable : Bool) (o : ProbeOutcome) :
    ∃ b : Bool, capabilityProbe xrAvailable true o = some b := by
  cases xrAvailable <;> cases o <;> simp [capabilityProbe]

/-- C9: when a start is already in progress or support is known false,
startAR returns early and the whole state, anchor pose, mode and starting
flag included, is unchanged, with nothing logged. -/
theorem startAR_guard_noop (s : AppState) (o : SessionOutcome)
    (h : s.isStarting = true ∨ s.isSupported = some false) :
    startAR s o = (s, none) := by
  have hg : (s.isStarting || s.isSupported == some false) = true := by
    rcases h with h1 | h2
    · simp [h1]
    · simp [h2]
  simp [startAR, hg]

/-- Witness for C9: a state in the middle of starting is left unchanged. -/
theorem startAR_guard_noop_witness :
    startAR { appInit with isStarting := true } SessionOutcome.success =
      ({ appInit with isStarting := true }, none) :=
  startAR_guard_noop { appInit with isStarting := true } SessionOutcome.success
    (Or.inl rfl)

/-! Surface Reticle (App.jsx SurfaceReticle). Vector3 and Quaternion are
mutable three.js objects; to express cloning versus aliasing, the model
uses an explicit heap of cells and references (indices). The module-level
scratch objects tempPosition, tempScale, tempRotation, the poseStore
cells and the reticle mesh transform occupy fixed heap slots; clone()
allocates a fresh cell. -/

/-- Heap of Vector3 and Quaternion cells; a reference is a list index. -/
structure Mem where
  vecs : List Vec3
  quats : List Quat
deriving DecidableEq, Repr

/-- Read a Vector3 cell (out-of-range reads return the default origin;
well-formed states never read out of range). -/
def Mem.readVec (m : Mem) (r : Nat) : Vec3 := (m.vecs[r]?).getD Vec3.zero

/-- Read a Quaternion cell. -/
def Mem.readQuat (m : Mem) (r : Nat) : Quat := (m.quats[r]?).getD Quat.identity

/-- In-place write of a Vector3 cell (three.js copy / set). -/
def Mem.writeVec (m : Mem) (r : Nat) (v : Vec3) : Mem :=
  { m with vecs := m.vecs.set r v }

/-- In-place write of a Quaternion cell. -/
def Mem.writeQuat (m : Mem) (r : Nat) (q : Quat) : Mem :=
  { m with quats := m.quats.set r q }

/-- Allocation of a fresh Vector3 cell (three.js clone / new Vector3). -/
def Mem.allocVec (m : Mem) (v : Vec3) : Mem × Nat :=
  ({ m with vecs := m.vecs ++ [v] }, m.vecs.length)

/-- Allocation of a fresh Quaternion cell. -/
def Mem.allocQuat (m : Mem) (q : Quat) : Mem × Nat :=
  ({ m with quats := m.quats ++ [q] }, m.quats.length)

/-- Reference to a pose object: a position cell and a rotation cell. -/
structure PoseRef where
  position : Nat
  rotation : Nat
deriving DecidableEq, Repr

/-- Fixed Vector3 slots: module-level tempPosition and tempScale scratch,
the poseStore position cell, and the reticle mesh position. -/
def tempPositionRef : Nat := 0

/-- tempScale scratch slot. -/
def tempScaleRef : Nat := 1

/-- poseStore.current.position slot. -/
def poseStorePosRef : Nat := 2

/-- reticle mesh position slot. -/
def reticlePosRef : Nat := 3

/-- Fixed Quaternion slots: tempRotation scratch, poseStore rotation, and
the reticle mesh quaternion. -/
def tempRotationRef : Nat := 0

/-- poseStore.current.rotation slot. -/
def poseStoreRotRef : Nat := 1

/-- reticle mesh quaternion slot. -/
def reticleRotRef : Nat := 2

/-- State of the SurfaceReticle component together with the anchor state
of the App that consumes its onAnchor callback. latestPose and lastHit
are the two useRef caches; anchorPose is the App useState value, holding
the pose object passed to setAnchorPose. -/
structure ReticleState where
  mem : Mem
  latestPose : Option PoseRef
  lastHit : Option PoseRef
  anchorPose : Option PoseRef
  reticleVisible : Bool
deriving DecidableEq, Repr

/-- Initial state: scratch and store cells default-constructed, both pose
caches null, no anchor, reticle hidden (App.jsx lines 10-25 and 67). -/
def reticleInit : ReticleState :=
  { mem := { vecs := [Vec3.zero, Vec3.zero, Vec3.zero, Vec3.zero],
             quats := [Quat.identity, Quat.identity, Quat.identity] },
    latestPose := none, lastHit := none, anchorPose := none,
    reticleVisible := false }

/-- One platform hit-test result as seen by the callback after the
external collaborators run: whether getWorldMatrix found a world matrix,
and the position, rotation and scale that Matrix4.decompose would
produce from it. -/
structure HitResult where
  worldMatrixAvailable : Bool
  position : Vec3
  rotation : Quat
  scale : Vec3
deriving DecidableEq, Repr

/-- Hit-test callback (App.jsx lines 28-49): take hitResults[0], return
early if absent or without a world matrix; otherwise decompose into the
temp scratch cells, copy into poseStore, point latestPose at poseStore,
record lastHit as clones of the temps, and update the reticle mesh. -/
def onHitTest (s : ReticleState) (hitResults : List HitResult)
    (showReticle : Bool) : ReticleState :=
  match hitResults.head? with
  | none => s
  | some hit =>
    if !hit.worldMatrixAvailable then s
    else
      let m1 := ((s.mem.writeVec tempPositionRef hit.position).writeQuat
        tempRotationRef hit.rotation).writeVec tempScaleRef hit.scale
      let m2 := m1.writeVec poseStorePosRef (m1.readVec tempPositionRef)
      let m3 := m2.writeQuat poseStoreRotRef (m2.readQuat tempRotationRef)
      let a1 := m3.allocVec (m3.readVec tempPositionRef)
      let a2 := a1.1.allocQuat (a1.1.readQuat tempRotationRef)
      let m6 := a2.1.writeVec reticlePosRef (a2.1.readVec tempPositionRef)
      let m7 := m6.writeQuat reticleRotRef (m6.readQuat tempRotationRef)
      { s with mem := m7,
               latestPose := some ⟨poseStorePosRef, poseStoreRotRef⟩,
               lastHit := some ⟨a1.2, a2.2⟩,
               reticleVisible := showReticle }

/-- Select handler (App.jsx lines 54-64): hitPose is lastHit if non-null,
else latestPose; if null, do nothing; otherwise allocate clones of its
position and rotation and pass the fresh pose object to onAnchor, which
stores it as the anchor state. The second component is the emitted
anchor request. -/
def onSelect (s : ReticleState) : ReticleState × Option PoseRef :=
  match (match s.lastHit with
         | some p => some p
         | none => s.latestPose) with
  | none => (s, none)
  | some hitPose =>
    let a1 := s.mem.allocVec (s.mem.readVec hitPose.position)
    let a2 := a1.1.allocQuat (a1.1.readQuat hitPose.rotation)
    let newPose : PoseRef := ⟨a1.2, a2.2⟩
    ({ s with mem := a2.1, anchorPose := some newPose }, some newPose)

/-- Value of the anchor pose obtained by dereferencing its cells. -/
def anchorValue (s : ReticleState) : Option (Vec3 × Quat) :=
  s.anchorPose.map fun p => (s.mem.readVec p.position, s.mem.readQuat p.rotation)

/-- Events delivered to the reticle: per-frame hit-test callbacks and
select (tap) events. -/
inductive ReticleEvent where
  | hitTest (hitResults : List HitResult) (showReticle : Bool)
  | select
deriving DecidableEq, Repr

/-- Step of the reticle event loop. -/
def stepEvent (s : ReticleState) (e : ReticleEvent) : ReticleState :=
  match e with
  | .hitTest hs sr => onHitTest s hs sr
  | .select => (onSelect s).1

/-- Run of a list of reticle events. -/
def runEvents (s : ReticleState) (evs : List ReticleEvent) : ReticleState :=
  evs.foldl stepEvent s

/-- Whether an event captures a hit-test result: a hit-test callback
whose first result exists and has an available world matrix. -/
def capturesHit (e : ReticleEvent) : Bool :=
  match e with
  | .hitTest hs _ =>
      match hs.head? with
      | some h => h.worldMatrixAvailable
      | none => false
  | .select => false

/-- Run of a list of per-frame hit-test callbacks (first components the
reported hitResults, second the showReticle flag of the frame). -/
def runHits (s : ReticleState) (frames : List (List HitResult × Bool)) : ReticleState :=
  frames.foldl (fun t fr => onHitTest t fr.1 fr.2) s

/-- Invariant: the anchor pose, when present, references cells strictly
above the fixed scratch slots and inside the heap. -/
def anchorGood (s : ReticleState) : Prop :=
  ∀ p, s.anchorPose = some p →
    4 ≤ p.position ∧ p.position < s.mem.vecs.length ∧
    3 ≤ p.rotation ∧ p.rotation < s.mem.quats.length

lemma onHitTest_noCapture (t : ReticleState) (hs : List HitResult) (sr : Bool)
    (h : capturesHit (ReticleEvent.hitTest hs sr) = false) :
    onHitTest t hs sr = t := by
  cases hh : hs.head? with
  | none => simp [onHitTest, hh]
  | some h0 =>
      have hw : h0.worldMatrixAvailable = false := by
        simpa [capturesHit, hh] using h
      simp [onHitTest, hh, hw]

lemma onHitTest_capture_eq (t : ReticleState) (hs : List HitResult)
    (h0 : HitResult) (sr : Bool)
    (hHead : hs.head? = some h0) (hAvail : h0.worldMatrixAvailable = true)
    (hv : 4 ≤ t.mem.vecs.length) (hq : 3 ≤ t.mem.quats.length) :
    onHitTest t hs sr =
      { mem := { vecs := ((((t.mem.vecs.set 0 h0.position).set 1 h0.scale).set 2
                    h0.position) ++ [h0.position]).set 3 h0.position,
                 quats := (((t.mem.quats.set 0 h0.rotation).set 1 h0.rotation)
                    ++ [h0.rotation]).set 2 h0.rotation },
        latestPose := some ⟨poseStorePosRef, poseStoreRotRef⟩,
        lastHit := some ⟨t.mem.vecs.length, t.mem.quats.length⟩,
        anchorPose := t.anchorPose,
        reticleVisible := sr } := by
  have hv0 : 0 < t.mem.vecs.length := by omega
  have hq0 : 0 < t.mem.quats.length := by omega
  have hA0 : ((((t.mem.vecs.set 0 h0.position).set 1 h0.scale).set 2 h0.position)
      ++ [h0.position])[0]? = some h0.position := by
    rw [List.getElem?_append_left (by simpa using hv0),
        List.getElem?_set_ne (by omega), List.getElem?_set_ne (by omega),
        List.getElem?_set_eq_of_lt _ hv0]
  have hQ0 : (((t.mem.quats.set 0 h0.rotation).set 1 h0.rotation)
      ++ [h0.rotation])[0]? = some h0.rotation := by
    rw [List.getElem?_append_left (by simpa using hq0),
        List.getElem?_set_ne (by omega),
        List.getElem?_set_eq_of_lt _ hq0]
  simp [onHitTest, hHead, hAvail, Mem.writeVec, Mem.writeQuat, Mem.allocVec, Mem.allocQuat,
    Mem.readVec, Mem.readQuat, tempPositionRef, tempScaleRef, poseStorePosRef,
    reticlePosRef, tempRotationRef, poseStoreRotRef, reticleRotRef,
    List.getElem?_set_ne, List.getElem?_set_eq_of_lt, hv0, hq0,
    List.getElem?_append_left]
  constructor
  · congr 1
    apply Option.some.inj
    rw [← List.getElem?_eq_getElem]
    exact hA0
  · congr 1
    apply Option.some.inj
    rw [← List.getElem?_eq_getElem]
    exact hQ0

lemma getElem?_append_self {α : Type} (l : List α) (a : α) :
    (l ++ [a])[l.length]? = some a := by
  simp

lemma onHitTest_anchorPose_eq (t : ReticleState) (hs : List HitResult) (sr : Bool) :
    (onHitTest t hs sr).anchorPose = t.anchorPose := by
  cases hh : hs.head? with
  | none => simp [onHitTest, hh]
  | some h0 =>
      cases hw : h0.worldMatrixAvailable <;> simp [onHitTest, hh, hw]

lemma onHitTest_readVec_high (t : ReticleState) (hs : List HitResult) (sr : Bool)
    (i : Nat) (h4 : 4 ≤ i) (hlt : i < t.mem.vecs.length)
    (hq : 3 ≤ t.mem.quats.length) :
    (onHitTest t hs sr).mem.readVec i = t.mem.readVec i := by
  cases hh : hs.head? with
  | none => simp [onHitTest, hh]
  | some h0 =>
      cases hw : h0.worldMatrixAvailable with
      | false => simp [onHitTest, hh, hw]
      | true =>
          rw [onHitTest_capture_eq t hs h0 sr hh hw (by omega) hq]
          simp only [Mem.readVec]
          rw [List.getElem?_set_ne (by omega),
              List.getElem?_append_left (by simpa using hlt),
              List.getElem?_set_ne (by omega), List.getElem?_set_ne (by omega),
              List.getElem?_set_ne (by omega)]

lemma onHitTest_readQuat_high (t : ReticleState) (hs : List HitResult) (sr : Bool)
    (j : Nat) (h3 : 3 ≤ j) (hlt : j < t.mem.quats.length)
    (hv : 4 ≤ t.mem.vecs.length) :
    (onHitTest t hs sr).mem.readQuat j = t.mem.readQuat j := by
  cases hh : hs.head? with
  | none => simp [onHitTest, hh]
  | some h0 =>
      cases hw : h0.worldMatrixAvailable with
      | false => simp [onHitTest, hh, hw]
      | true =>
          rw [onHitTest_capture_eq t hs h0 sr hh hw hv (by omega)]
          simp only [Mem.readQuat]
          rw [List.getElem?_set_ne (by omega),
              List.getElem?_append_left (by simpa using hlt),
              List.getElem?_set_ne (by omega), List.getElem?_set_ne (by omega)]

lemma onHitTest_vecsLen_mono (t : ReticleState) (hs : List HitResult) (sr : Bool) :
    t.mem.vecs.length ≤ (onHitTest t hs sr).mem.vecs.length := by
  cases hh : hs.head? with
  | none => simp [onHitTest, hh]
  | some h0 =>
      cases hw : h0.worldMatrixAvailable with
      | false => simp [onHitTest, hh, hw]
      | true =>
          simp [onHitTest, hh, hw, Mem.writeVec, Mem.writeQuat, Mem.allocVec,
            Mem.allocQuat]

lemma onHitTest_quatsLen_mono (t : ReticleState) (hs : List HitResult) (sr : Bool) :
    t.mem.quats.length ≤ (onHitTest t hs sr).mem.quats.length := by
  cases hh : hs.head? with
  | none => simp [onHitTest, hh]
  | some h0 =>
      cases hw : h0.worldMatrixAvailable with
      | false => simp [onHitTest, hh, hw]
      | true =>
          simp [onHitTest, hh, hw, Mem.writeVec, Mem.writeQuat, Mem.allocVec,
            Mem.allocQuat]

lemma onHitTest_anchor_invariant (t : ReticleState) (hs : List HitResult) (sr : Bool)
    (hg : anchorGood t) :
    anchorGood (onHitTest t hs sr) ∧
    anchorValue (onHitTest t hs sr) = anchorValue t := by
  have hap := onHitTest_anchorPose_eq t hs sr
  cases hpo : t.anchorPose with
  | none =>
      constructor
      · intro p hp
        rw [hap, hpo] at hp
        exact absurd hp (by simp)
      · simp [anchorValue, hap, hpo]
  | some p =>
      obtain ⟨hp4, hplt, hr3, hrlt⟩ := hg p hpo
      have e1 := onHitTest_readVec_high t hs sr p.position hp4 hplt (by omega)
      have e2 := onHitTest_readQuat_high t hs sr p.rotation hr3 hrlt (by omega)
      constructor
      · intro p2 hp2
        rw [hap, hpo] at hp2
        obtain rfl : p = p2 := by simpa using hp2
        have l1 := onHitTest_vecsLen_mono t hs sr
        have l2 := onHitTest_quatsLen_mono t hs sr
        exact ⟨hp4, by omega, hr3, by omega⟩
      · simp [anchorValue, hap, hpo, e1, e2]

lemma runHits_anchor_invariant (frames : List (List HitResult × Bool))
    (t : ReticleState) (hg : anchorGood t) :
    anchorGood (runHits t frames) ∧
    anchorValue (runHits t frames) = anchorValue t := by
  induction frames generalizing t with
  | nil => exact ⟨hg, rfl⟩
  | cons fr frames ih =>
      have h1 := onHitTest_anchor_invariant t fr.1 fr.2 hg
      have h2 := ih (onHitTest t fr.1 fr.2) h1.1
      exact ⟨h2.1, h2.2.trans h1.2⟩

lemma onSelect_lastHit_eq (t : ReticleState) (pr : PoseRef)
    (h : t.lastHit = some pr) :
    (onSelect t).1 =
      { t with
          mem := { vecs := t.mem.vecs ++ [t.mem.readVec pr.position],
                   quats := t.mem.quats ++ [t.mem.readQuat pr.rotation] },
          anchorPose := some ⟨t.mem.vecs.length, t.mem.quats.length⟩ } ∧
    (onSelect t).2 = some ⟨t.mem.vecs.length, t.mem.quats.length⟩ := by
  constructor <;>
    simp [onSelect, h, Mem.allocVec, Mem.allocQuat, Mem.readVec, Mem.readQuat]

lemma anchorValue_after_select (t : ReticleState) (pr : PoseRef)
    (h : t.lastHit = some pr) :
    anchorValue (onSelect t).1 =
      some (t.mem.readVec pr.position, t.mem.readQuat pr.rotation) := by
  rw [(onSelect_lastHit_eq t pr h).1]
  simp [anchorValue, Mem.readVec, Mem.readQuat]

lemma anchorGood_after_select (t : ReticleState) (pr : PoseRef)
    (h : t.lastHit = some pr)
    (hv : 4 ≤ t.mem.vecs.length) (hq : 3 ≤ t.mem.quats.length) :
    anchorGood (onSelect t).1 := by
  rw [(onSelect_lastHit_eq t pr h).1]
  intro p hp
  obtain rfl : (⟨t.mem.vecs.length, t.mem.quats.length⟩ : PoseRef) = p := by
    simpa using hp
  simp
  omega

/-- C10: a hit-test callback invocation with zero hits, or whose first
hit has no available world matrix, leaves the whole reticle state
unchanged, in particular the latest-pose cache, the last-hit record and
the reticle transform. -/
theorem hitTest_early_return (s : ReticleState) (hs : List HitResult) (sr : Bool)
    (h : hs.head? = none ∨
      ∃ h0, hs.head? = some h0 ∧ h0.worldMatrixAvailable = false) :
    onHitTest s hs sr = s := by
  rcases h with h | ⟨h0, hh, hw⟩
  · simp [onHitTest, h]
  · simp [onHitTest, hh, hw]

/-- Witness for C10: an empty hit-result list at the initial state. -/
theorem hitTest_early_return_witness :
    onHitTest reticleInit [] true = reticleInit :=
  hitTest_early_return reticleInit [] true (Or.inl rfl)

lemma stepEvent_noop_of_noPose (s : ReticleState) (e : ReticleEvent)
    (hl : s.lastHit = none) (hp : s.latestPose = none)
    (he : capturesHit e = false) :
    stepEvent s e = s := by
  cases e with
  | hitTest hs sr => exact onHitTest_noCapture s hs sr he
  | select => simp [stepEvent, onSelect, hl, hp]

lemma runEvents_noCapture (evs : List ReticleEvent) (s : ReticleState)
    (hl : s.lastHit = none) (hp : s.latestPose = none)
    (h : ∀ e ∈ evs, capturesHit e = false) :
    runEvents s evs = s := by
  induction evs generalizing s with
  | nil => rfl
  | cons e evs ih =>
      have h1 : stepEvent s e = s :=
        stepEvent_noop_of_noPose s e hl hp (h e (by simp))
      show runEvents (stepEvent s e) evs = s
      rw [h1]
      exact ih s hl hp fun x hx => h x (by simp [hx])

/-- C3: if no hit-test result has ever been captured since the initial
state, a select (tap) event emits no anchor request, changes nothing, and
the anchor state is still absent. -/
theorem select_no_capture_noop (evs : List ReticleEvent)
    (h : ∀ e ∈ evs, capturesHit e = false) :
    (onSelect (runEvents reticleInit evs)).2 = none ∧
    (onSelect (runEvents reticleInit evs)).1 = runEvents reticleInit evs ∧
    (runEvents reticleInit evs).anchorPose = none := by
  have hr : runEvents reticleInit evs = reticleInit :=
    runEvents_noCapture evs reticleInit rfl rfl h
  rw [hr]
  exact ⟨rfl, rfl, rfl⟩

/-- Witness for C3: a run consisting of an empty hit-test callback and an
earlier tap, followed by the tap under scrutiny. -/
theorem select_no_capture_noop_witness :
    (onSelect (runEvents reticleInit
      [ReticleEvent.hitTest [] true, ReticleEvent.select])).2 = none :=
  (select_no_capture_noop [ReticleEvent.hitTest [] true, ReticleEvent.select]
    (by decide)).1

/-- C4: anchoring via select makes a defensive copy. After a captured hit
pose is selected, the anchor reads back as exactly the captured position
and rotation, the emitted request is the stored anchor object, and any
number of later hit-test callbacks, which mutate the per-frame scratch
cells, leave the established anchor value unchanged. -/
theorem anchor_defensive_copy (s : ReticleState) (hits : List HitResult)
    (h0 : HitResult) (sr : Bool) (later : List (List HitResult × Bool))
    (hHead : hits.head? = some h0) (hAvail : h0.worldMatrixAvailable = true)
    (hv : 4 ≤ s.mem.vecs.length) (hq : 3 ≤ s.mem.quats.length) :
    anchorValue (onSelect (onHitTest s hits sr)).1 =
      some (h0.position, h0.rotation) ∧
    (onSelect (onHitTest s hits sr)).2 =
      (onSelect (onHitTest s hits sr)).1.anchorPose ∧
    anchorValue (runHits (onSelect (onHitTest s hits sr)).1 later) =
      anchorValue (onSelect (onHitTest s hits sr)).1 := by
  have hshape := onHitTest_capture_eq s hits h0 sr hHead hAvail hv hq
  have hlast : (onHitTest s hits sr).lastHit =
      some ⟨s.mem.vecs.length, s.mem.quats.length⟩ := by rw [hshape]
  have hlenA : (((s.mem.vecs.set 0 h0.position).set 1 h0.scale).set 2
      h0.position).length = s.mem.vecs.length := by simp
  have hlenB : ((s.mem.quats.set 0 h0.rotation).set 1
      h0.rotation).length = s.mem.quats.length := by simp
  have hreadV : (onHitTest s hits sr).mem.readVec s.mem.vecs.length =
      h0.position := by
    rw [hshape]
    simp only [Mem.readVec]
    rw [List.getElem?_set_ne (by omega), ← hlenA, getElem?_append_self]
    rfl
  have hreadQ : (onHitTest s hits sr).mem.readQuat s.mem.quats.length =
      h0.rotation := by
    rw [hshape]
    simp only [Mem.readQuat]
    rw [List.getElem?_set_ne (by omega), ← hlenB, getElem?_append_self]
    rfl
  have hv1 : 4 ≤ (onHitTest s hits sr).mem.vecs.length := by
    rw [hshape]
    simp
    omega
  have hq1 : 3 ≤ (onHitTest s hits sr).mem.quats.length := by
    rw [hshape]
    simp
    omega
  have hsel := onSelect_lastHit_eq (onHitTest s hits sr) _ hlast
  refine ⟨?_, ?_, ?_⟩
  · rw [anchorValue_after_select (onHitTest s hits sr) _ hlast, hreadV, hreadQ]
  · rw [hsel.2, hsel.1]
  · exact (runHits_anchor_invariant later _
      (anchorGood_after_select (onHitTest s hits sr) _ hlast hv1 hq1)).2

/-- Witness for C4: from the initial state, a hit at position (1, 0, 2)
is selected; a later frame with a different hit leaves the anchor value
at the captured pose. -/
theorem anchor_defensive_copy_witness :
    anchorValue (runHits (onSelect (onHitTest reticleInit
        [⟨true, ⟨1, 0, 2⟩, Quat.identity, ⟨1, 1, 1⟩⟩] true)).1
        [([⟨true, ⟨5, 6, 7⟩, ⟨0, 1, 0, 0⟩, ⟨1, 1, 1⟩⟩], true)]) =
      anchorValue (onSelect (onHitTest reticleInit
        [⟨true, ⟨1, 0, 2⟩, Quat.identity, ⟨1, 1, 1⟩⟩] true)).1 ∧
    anchorValue (onSelect (onHitTest reticleInit
        [⟨true, ⟨1, 0, 2⟩, Quat.identity, ⟨1, 1, 1⟩⟩] true)).1 =
      some (⟨1, 0, 2⟩, Quat.identity) :=
  ⟨(anchor_defensive_copy reticleInit
      [⟨true, ⟨1, 0, 2⟩, Quat.identity, ⟨1, 1, 1⟩⟩]
      ⟨true, ⟨1, 0, 2⟩, Quat.identity, ⟨1, 1, 1⟩⟩ true
      [([⟨true, ⟨5, 6, 7⟩, ⟨0, 1, 0, 0⟩, ⟨1, 1, 1⟩⟩], true)]
      rfl rfl (by decide) (by decide)).2.2,
   (anchor_defensive_copy reticleInit
      [⟨true, ⟨1, 0, 2⟩, Quat.identity, ⟨1, 1, 1⟩⟩]
      ⟨true, ⟨1, 0, 2⟩, Quat.identity, ⟨1, 1, 1⟩⟩ true
      [([⟨true, ⟨5, 6, 7⟩, ⟨0, 1, 0, 0⟩, ⟨1, 1, 1⟩⟩], true)]
      rfl rfl (by decide) (by decide)).1⟩
